import Mathlib

/-!
Shallow embedding of the difficulty-chart build pipeline
(`scripts/compile.py` and `scripts/generate_templates.py`).

JSON numbers are modelled as rationals (every rating constant occurring in
the data model is an exactly representable decimal), JSON strings as
`String`, and optional dictionary keys as `Option` fields.
-/

namespace Compile

/-- A JSON `rating` value: either a number or a string.  (`rating` values of
other JSON types do not occur in the data model of the repository.) -/
inductive Rating where
  | num (q : ℚ)
  | str (s : String)
deriving DecidableEq, Repr

/-- A difficulty entry: a JSON object with four (possibly missing) keys,
`name`, `decal_id`, `rating`, `overview`. -/
structure Difficulty where
  name : Option String := none
  decal_id : Option String := none
  rating : Option Rating := none
  overview : Option String := none
deriving DecidableEq, Repr

/-- A class/chain container: a JSON object as loaded from one source file.
Only the keys the scripts read are modelled. -/
structure Container where
  class_id : Option String := none
  class_name : Option String := none
  chain_id : Option String := none
  chain_name : Option String := none
  description : Option String := none
  difficulties : Option (List Difficulty) := none
deriving DecidableEq, Repr

/-- Digits to the natural number they denote (most significant first). -/
def digToNat (cs : List Char) : Nat :=
  cs.foldl (fun a c => a * 10 + (c.toNat - 48)) 0

/-- Exponent suffix of a float literal: optional sign, then at least one
digit and nothing else; scales the fraction `n / d` by the denoted power of
ten. -/
def applyExp (n : Int) (d : Nat) (cs : List Char) : Option ℚ :=
  let p :=
    match cs with
    | '-' :: t => (true, t)
    | '+' :: t => (false, t)
    | _ => (false, cs)
  let ed := p.2.takeWhile Char.isDigit
  if ed.isEmpty ∨ ¬ (p.2.dropWhile Char.isDigit).isEmpty then none
  else if p.1 then some (mkRat n (d * 10 ^ digToNat ed))
  else some (mkRat (n * ((10 ^ digToNat ed : Nat) : Int)) d)

/-- Model of Python `float(string)` on a character list (already stripped):
optional sign, digits with an optional fractional part (at least one digit
overall), optional exponent.  Restricted to finite decimal literals: the
`inf`/`infinity`/`nan` spellings and digit-group underscores that Python's
`float` also accepts are outside the model — the repository's data model
represents infinities only by the exact sentinel strings matched before any
parse is attempted. -/
def pyFloatCore (cs : List Char) : Option ℚ :=
  let p :=
    match cs with
    | '-' :: t => (true, t)
    | '+' :: t => (false, t)
    | _ => (false, cs)
  let ip := p.2.takeWhile Char.isDigit
  let r1 := p.2.dropWhile Char.isDigit
  let fr :=
    match r1 with
    | '.' :: t => (t.takeWhile Char.isDigit, t.dropWhile Char.isDigit)
    | _ => ([], r1)
  if ip.isEmpty ∧ fr.1.isEmpty then none
  else
    let m : Int := digToNat (ip ++ fr.1)
    let n : Int := if p.1 then -m else m
    let d : Nat := 10 ^ fr.1.length
    match fr.2 with
    | [] => some (mkRat n d)
    | 'e' :: t => applyExp n d t
    | 'E' :: t => applyExp n d t
    | _ => none

/-- Surrounding whitespace, which Python's `float` strips before parsing
(modelled with `Char.isWhitespace`, covering the ASCII whitespace occurring
in the data). -/
def pyStrip (cs : List Char) : List Char :=
  ((cs.dropWhile Char.isWhitespace).reverse.dropWhile Char.isWhitespace).reverse

/-- Model of Python `float(string)`: strip surrounding whitespace, then
parse a finite decimal literal. -/
def pyFloat (s : String) : Option ℚ :=
  pyFloatCore (pyStrip s.data)

/-- Model of `str.split(' ')[0]`: the text before the first space character (the
whole string when it contains no space). -/
def firstTok (s : String) : String :=
  String.mk (s.data.takeWhile (fun c => ¬ c = ' '))

/-- The boundary of the `pyFloat` model: strings Python's `float` parses as
an infinity or NaN (optional sign, then `inf`/`infinity`/`nan` in any
case).  `pyFloat` returns `none` on these although Python's `float`
succeeds, so theorems quantifying over strings through `pyFloat` carry
`isInfNan _ = false` side conditions to stay within the model. -/
def isInfNan (s : String) : Bool :=
  let t :=
    match pyStrip s.data with
    | '-' :: u => u
    | '+' :: u => u
    | u => u
  let l := t.map Char.toLower
  l = "inf".data ∨ l = "infinity".data ∨ l = "nan".data

/-- The rating half of `sort_rating_key`, on the value of `diff.get("rating")`:
the sentinel comparisons, then `float(r)`, then `float(str(r).split(' ')[0])`,
then the `99997` fallback.  A missing rating (`None`) fails both parses
(`str(None) = "None"`), landing in the fallback. -/
def rating_key : Option Rating → ℚ
  | none => 99997
  | some (.num q) => q
  | some (.str s) =>
    if s = "-inf" then -99999
    else if s = "inf" then 99999
    else if s = "???" ∨ s = "N/A" ∨ s = "Unending" ∨ s = "251+" then 99998
    else
      match pyFloat s with
      | some q => q
      | none =>
        match pyFloat (firstTok s) with
        | some q => q
        | none => 99997

/-- The function `sort_rating_key(diff)`: convert a difficulty's rating to a sortable
value. -/
def sort_rating_key (d : Difficulty) : ℚ :=
  rating_key d.rating

/-- The list `REQUIRED_FIELDS` from the script. -/
def REQUIRED_FIELDS : List String := ["name", "decal_id", "rating", "overview"]

/-- Test `field in diff`: whether the given key is present on the entry. -/
def fieldPresent (d : Difficulty) : String → Bool
  | "name" => d.name.isSome
  | "decal_id" => d.decal_id.isSome
  | "rating" => d.rating.isSome
  | "overview" => d.overview.isSome
  | _ => false

/-- The shared prefix of both error messages:
`  [{source_file}] Difficulty #{index + 1}` (the caller passes `index + 1`). -/
def errHead (source_file : String) (k : Nat) : String :=
  "  [" ++ source_file ++ "] Difficulty #" ++ toString k

/-- The missing-field error message
`  [{source_file}] Difficulty #{index + 1} ("{diff.get("name", "UNNAMED")}"): missing field '{field}'`. -/
def missingFieldErr (source_file : String) (k : Nat) (nm field : String) : String :=
  errHead source_file k ++ " (\"" ++ nm ++ "\"): missing field \x27" ++ field ++ "\x27"

/-- The empty-name error message
`  [{source_file}] Difficulty #{index + 1}: 'name' is empty`. -/
def emptyNameErr (source_file : String) (k : Nat) : String :=
  errHead source_file k ++ ": \x27name\x27 is empty"

/-- One iteration of the `for field in REQUIRED_FIELDS` loop of
`validate_difficulty`. -/
def fieldErrors (d : Difficulty) (source_file : String) (index : Nat) (field : String) :
    List String :=
  if ¬ fieldPresent d field then
    [missingFieldErr source_file (index + 1) (d.name.getD "UNNAMED") field]
  else if field = "name" ∧ (pyStrip ((d.name.getD "").data)).isEmpty then
    [emptyNameErr source_file (index + 1)]
  else []

/-- The function `validate_difficulty(diff, source_file, index)`: the errors of the four
required fields, in field order. -/
def validate_difficulty (d : Difficulty) (source_file : String) (index : Nat) : List String :=
  (REQUIRED_FIELDS.map (fieldErrors d source_file index)).flatten

/-- The placeholder test of `process_file`:
`d.get("name") == "Example Difficulty" and d.get("rating") == 0`. -/
def isPlaceholder (d : Difficulty) : Bool :=
  d.name == some "Example Difficulty" && d.rating == some (.num 0)

/-- The Boolean comparison Python's stable `list.sort(key=sort_rating_key)`
sorts by. -/
def keyLE (a b : Difficulty) : Bool :=
  decide (sort_rating_key a ≤ sort_rating_key b)

/-- The function `process_file(filepath)`, on the already-loaded JSON `data` of the file
named `filename`: filter out placeholder entries, validate every surviving
entry in pre-sort order, stably sort by rating, and return the updated
container together with the collected errors. -/
def process_file (filename : String) (data : Container) : Container × List String :=
  let difficulties := (data.difficulties.getD []).filter (fun d => ! isPlaceholder d)
  let errors := (difficulties.enum.map (fun p => validate_difficulty p.2 filename p.1)).flatten
  let sorted := difficulties.mergeSort keyLE
  ({ data with difficulties := some sorted }, errors)

/-- A source file as discovered by the glob: its filename and its parsed
JSON content.  `main` receives the class files and the chain files in the
sorted order the glob produces. -/
structure SourceFile where
  name : String
  data : Container
deriving DecidableEq, Repr

/-- Model of `filepath.stem`: the filename without its final extension. -/
def stem (n : String) : String :=
  match (n.splitOn ".").dropLast with
  | [] => n
  | parts => String.intercalate "." parts

/-- A difficulty copied into the combined list, tagged with its class's
identifier and display name (`d_copy["class_id"]`, `d_copy["class_name"]`). -/
structure TaggedDifficulty where
  d : Difficulty
  class_id : String
  class_name : String
deriving DecidableEq, Repr

/-- One summary record of `index.json`'s `classes` (or `chains`) list. -/
structure IndexEntry where
  id : String
  name : String
  description : String
  difficulty_count : Nat
  file : String
deriving DecidableEq, Repr

/-- The shape of `index.json`. -/
structure IndexFile where
  total_difficulties : Nat
  total_classes : Nat
  total_chains : Nat
  classes : List IndexEntry
  chains : List IndexEntry
deriving DecidableEq, Repr

/-- The shape of `all.json`. -/
structure AllFile where
  total : Nat
  difficulties : List TaggedDifficulty
deriving DecidableEq, Repr

/-- Everything one run of `main()` writes or reports: the compiled files
(as path/content pairs, in write order), the two aggregate files, the
collected validation errors and the process exit status. -/
structure CompileResult where
  dist_files : List (String × Container)
  chain_dist_files : List (String × Container)
  index : IndexFile
  all : AllFile
  all_errors : List String
  exit_code : Nat
deriving Repr

/-- The Boolean comparison the combined `all_difficulties.sort` sorts by:
the tagged copy carries the same `rating`, so `sort_rating_key` reads the
same value on it. -/
def keyLET (a b : TaggedDifficulty) : Bool :=
  decide (sort_rating_key a.d ≤ sort_rating_key b.d)

/-- The per-class-file work of `main`'s first loop: process the file, tag
each surviving difficulty for the combined list, and build the compiled
file and its index entry. -/
def processClass (f : SourceFile) :
    Container × List String × List TaggedDifficulty × IndexEntry :=
  let pr := process_file f.name f.data
  let data := pr.1
  let tagged := (data.difficulties.getD []).map
    (fun d => ⟨d, data.class_id.getD (stem f.name), data.class_name.getD (stem f.name)⟩)
  (data, pr.2, tagged,
    { id := data.class_id.getD (stem f.name)
      name := data.class_name.getD (stem f.name)
      description := data.description.getD ""
      difficulty_count := (data.difficulties.getD []).length
      file := f.name })

/-- The per-chain-file work of `main`'s second loop: no tagging, and the
compiled file goes under `chains/`. -/
def processChain (f : SourceFile) : Container × List String × IndexEntry :=
  let pr := process_file f.name f.data
  let data := pr.1
  (data, pr.2,
    { id := data.chain_id.getD (stem f.name)
      name := data.chain_name.getD (stem f.name)
      description := data.description.getD ""
      difficulty_count := (data.difficulties.getD []).length
      file := "chains/" ++ f.name })

/-- The function `main()`: process every class file then every chain file, accumulate
the tagged class difficulties into the combined list, sort it with the
same key, and assemble `index.json`, `all.json` and the exit status
(`sys.exit(1)` when any validation error was collected). -/
def main (class_files chain_files : List SourceFile) : CompileResult :=
  let cls := class_files.map processClass
  let chs := chain_files.map processChain
  let all_errors :=
    (cls.map (fun r => r.2.1)).flatten ++ (chs.map (fun r => r.2.1)).flatten
  let all_difficulties := ((cls.map (fun r => r.2.2.1)).flatten).mergeSort keyLET
  { dist_files := (class_files.zip cls).map (fun p => (p.1.name, p.2.1))
    chain_dist_files := (chain_files.zip chs).map (fun p => ("chains/" ++ p.1.name, p.2.1))
    index :=
      { total_difficulties := all_difficulties.length
        total_classes := class_files.length
        total_chains := chain_files.length
        classes := cls.map (fun r => r.2.2.2)
        chains := chs.map (fun r => r.2.2) }
    all := { total := all_difficulties.length, difficulties := all_difficulties }
    all_errors := all_errors
    exit_code := if all_errors.isEmpty then 0 else 1 }

end Compile

namespace Templates

/-- The list `CLASSES` from `generate_templates.py`. -/
def CLASSES : List (String × String) :=
  [("class_negative", "Class Negative"), ("class_0", "Class 0"), ("class_1", "Class 1"),
   ("class_2", "Class 2"), ("class_3", "Class 3"), ("class_4", "Class 4"),
   ("class_5", "Class 5"), ("class_6", "Class 6"), ("class_7", "Class 7"),
   ("class_8", "Class 8"), ("class_9", "Class 9"), ("class_10", "Class 10"),
   ("class_11", "Class 11"), ("class_12", "Class 12"), ("class_13", "Class 13"),
   ("class_14", "Class 14"), ("class_15", "Class 15"), ("class_16", "Class 16"),
   ("class_17", "Class 17"), ("class_18", "Class 18"), ("class_19", "Class 19"),
   ("class_20a", "Class 20A"), ("class_20b", "Class 20B"), ("class_21", "Class 21"),
   ("class_22", "Class 22"), ("class_secret", "Class Secret")]

/-- The list `CHAINS` from `generate_templates.py`. -/
def CHAINS : List (String × String) :=
  [("excavation_chain", "Excavation Chain"), ("gar_chain", "Gar Chain"),
   ("error_chain", "Error Chain"), ("death_chain", "Death Chain")]

/-- The constant `EXAMPLE_DIFFICULTY`. -/
def EXAMPLE_DIFFICULTY : Compile.Difficulty :=
  { name := some "Example Difficulty"
    decal_id := some "rbxassetid://0"
    rating := some (.num 0)
    overview := some "A short description of this difficulty goes here." }

/-- The function `make_class_template(class_id, class_name)`. -/
def make_class_template (class_id class_name : String) : Compile.Container :=
  { class_id := some class_id
    class_name := some class_name
    description := some "Description of this class goes here."
    difficulties := some [EXAMPLE_DIFFICULTY] }

/-- The function `make_chain_template(chain_id, chain_name)`. -/
def make_chain_template (chain_id chain_name : String) : Compile.Container :=
  { chain_id := some chain_id
    chain_name := some chain_name
    description := some "Description of this chain goes here."
    difficulties := some [EXAMPLE_DIFFICULTY] }

/-- The directory the class templates go to (relative to the repository
root; the script builds it with `os.path.join`). -/
def classes_dir : String := "data/classes"

/-- The directory the chain templates go to. -/
def chains_dir : String := "data/chains"

/-- The path `os.path.join(dir, ...)` built from the identifier, for a `(identifier, display-name)`
pair. -/
def tpath (dir : String) (t : String × String) : String :=
  dir ++ "/" ++ t.1 ++ ".json"

/-- The filesystem visible to the generator, as an association list from
path to parsed JSON content (first binding wins, as with a real
filesystem there is at most one binding per path). -/
def FS := List (String × Compile.Container)

/-- The generator's observable effects: the filesystem after the run, and
the `Created:`/`SKIP (already exists):` reports in order. -/
structure GenState where
  files : List (String × Compile.Container)
  created : List String
  skipped : List String
deriving DecidableEq, Repr

/-- One iteration of a generator loop: `if os.path.exists(filepath): skip`
else write the template file. -/
def writeIfAbsent (dir : String) (mk : String → String → Compile.Container)
    (st : GenState) (t : String × String) : GenState :=
  if ((st.files.lookup (tpath dir t)).isSome : Bool) then
    { st with skipped := st.skipped ++ [tpath dir t] }
  else
    { st with
        files := st.files ++ [(tpath dir t, mk t.1 t.2)]
        created := st.created ++ [tpath dir t] }

/-- One generator loop over a list of `(identifier, display-name)` pairs. -/
def runList (dir : String) (mk : String → String → Compile.Container)
    (l : List (String × String)) (st : GenState) : GenState :=
  l.foldl (writeIfAbsent dir mk) st

/-- The function `main()` of `generate_templates.py`, run against the filesystem `fs`:
the class loop followed by the chain loop. -/
def gen_main (fs : List (String × Compile.Container)) : GenState :=
  runList chains_dir make_chain_template CHAINS
    (runList classes_dir make_class_template CLASSES
      { files := fs, created := [], skipped := [] })

/-- Every path the generator targets, in processing order. -/
def allTargets : List String :=
  CLASSES.map (tpath classes_dir) ++ CHAINS.map (tpath chains_dir)

end Templates

section Helpers

open Compile

example : rating_key (some (.str "inf")) = 99999 := by decide
example : rating_key (some (.str "abc")) = 99997 := by decide
example : rating_key (some (.str "13 (flow)")) = 13 := by decide
example : rating_key (some (.str "13.5")) = mkRat 27 2 := by decide
example : rating_key (some (.str "???")) = 99998 := by decide
example : rating_key (some (.num 5)) = 5 := by decide
example : rating_key none = 99997 := by decide

example :
    validate_difficulty { name := some "A", decal_id := some "x", rating := some (.num 1) }
      "f.json" 0 =
    ["  [f.json] Difficulty #1 (\"A\"): missing field \x27overview\x27"] := by decide

example :
    validate_difficulty { name := some "   " } "f.json" 2 =
    ["  [f.json] Difficulty #3: \x27name\x27 is empty",
     "  [f.json] Difficulty #3 (\"   \"): missing field \x27decal_id\x27",
     "  [f.json] Difficulty #3 (\"   \"): missing field \x27rating\x27",
     "  [f.json] Difficulty #3 (\"   \"): missing field \x27overview\x27"] := by decide

/-- The comparison `process_file` sorts by is transitive. -/
lemma keyLE_trans : ∀ (a b c : Difficulty), keyLE a b → keyLE b c → keyLE a c := by
  intro a b c hab hbc
  simp only [keyLE, decide_eq_true_eq] at *
  exact le_trans hab hbc

/-- The comparison `process_file` sorts by is total. -/
lemma keyLE_total : ∀ (a b : Difficulty), keyLE a b || keyLE b a := by
  intro a b
  simp only [keyLE, Bool.or_eq_true, decide_eq_true_eq]
  exact le_total _ _

/-- The comparison the combined list is sorted by is transitive. -/
lemma keyLET_trans : ∀ (a b c : TaggedDifficulty), keyLET a b → keyLET b c → keyLET a c := by
  intro a b c hab hbc
  simp only [keyLET, decide_eq_true_eq] at *
  exact le_trans hab hbc

/-- The comparison the combined list is sorted by is total. -/
lemma keyLET_total : ∀ (a b : TaggedDifficulty), keyLET a b || keyLET b a := by
  intro a b
  simp only [keyLET, Bool.or_eq_true, decide_eq_true_eq]
  exact le_total _ _

/-- The compiled `difficulties` of `process_file`, unfolded. -/
lemma process_file_fst (filename : String) (data : Container) :
    (process_file filename data).1.difficulties =
      some (((data.difficulties.getD []).filter
        (fun d => ! isPlaceholder d)).mergeSort keyLE) := rfl

/-- The function `process_file` only rewrites the `difficulties` key. -/
lemma process_file_ids (filename : String) (data : Container) :
    (process_file filename data).1.class_id = data.class_id ∧
    (process_file filename data).1.class_name = data.class_name ∧
    (process_file filename data).1.chain_id = data.chain_id ∧
    (process_file filename data).1.chain_name = data.chain_name ∧
    (process_file filename data).1.description = data.description :=
  ⟨rfl, rfl, rfl, rfl, rfl⟩

/-- The errors of `process_file`, unfolded. -/
lemma process_file_snd (filename : String) (data : Container) :
    (process_file filename data).2 =
      ((((data.difficulties.getD []).filter (fun d => ! isPlaceholder d)).enum.map
        (fun p => validate_difficulty p.2 filename p.1)).flatten) := rfl

/-- Mapping over a list zipped with its own image. -/
lemma zip_map_self {α β γ : Type _} (g : α → β) (F : α → β → γ) :
    ∀ (l : List α), (l.zip (l.map g)).map (fun p => F p.1 p.2) = l.map (fun a => F a (g a))
  | [] => rfl
  | a :: t => by
    simpa using zip_map_self g F t

/-- The compiled class files `main` writes, one per class source file. -/
lemma main_dist_files (cf ch : List SourceFile) :
    (main cf ch).dist_files = cf.map (fun f => (f.name, (processClass f).1)) := by
  simpa [main] using zip_map_self processClass (fun f r => (f.name, r.1)) cf

/-- The compiled chain files `main` writes, one per chain source file. -/
lemma main_chain_dist_files (cf ch : List SourceFile) :
    (main cf ch).chain_dist_files =
      ch.map (fun f => ("chains/" ++ f.name, (processChain f).1)) := by
  simpa [main] using zip_map_self processChain (fun f r => ("chains/" ++ f.name, r.1)) ch

/-- The compiled difficulties of every processed file are sorted ascending
by the rating key. -/
lemma process_file_sorted (filename : String) (data : Container) :
    ((process_file filename data).1.difficulties.getD []).Pairwise
      (fun a b => sort_rating_key a ≤ sort_rating_key b) := by
  rw [process_file_fst]
  simp only [Option.getD_some]
  exact (List.sorted_mergeSort keyLE_trans keyLE_total _).imp
    (fun h => by simpa [keyLE] using h)

/-- Two missing-field errors for the same file, position and name agree on
their field. -/
lemma missingFieldErr_field_inj (file : String) (k : Nat) (nm : String) {f g : String}
    (h : missingFieldErr file k nm f = missingFieldErr file k nm g) : f = g := by
  have hd := congrArg String.data h
  simp only [missingFieldErr, errHead, String.data_append, List.append_assoc,
    List.append_cancel_left_eq] at hd
  exact String.ext (List.append_cancel_right hd)

/-- Missing-field errors for distinct fields are distinct strings. -/
lemma missingFieldErr_ne (file : String) (k : Nat) (nm : String) {f g : String}
    (hfg : f ≠ g) : missingFieldErr file k nm f ≠ missingFieldErr file k nm g :=
  fun h => hfg (missingFieldErr_field_inj file k nm h)

/-- The empty-name error is a different string from every missing-field
error of the same file and position. -/
lemma emptyNameErr_ne_missingFieldErr (file : String) (k : Nat) (nm f : String) :
    emptyNameErr file k ≠ missingFieldErr file k nm f := by
  intro h
  have hd := congrArg String.data h
  simp only [emptyNameErr, missingFieldErr, errHead, String.data_append,
    List.append_assoc, List.append_cancel_left_eq] at hd
  simp at hd

end Helpers

section Claims

open Compile

/-- Claim C1, counterexample: the claim orders `normalizer("inf")` strictly
below the key of a malformed string such as `"abc"`, but the code returns
`99999` for `"inf"` and `99997` for `"abc"`, so the claimed inequality
fails at this concrete input. -/
theorem C1_counterexample :
    ¬ (rating_key (some (.str "inf")) < rating_key (some (.str "abc"))) := by decide

/-- Claim C1, amended: for every finite numeric rating `q` strictly between
the sentinel constants (`-99999 < q < 99997`) and every non-sentinel,
unparsable rating string `s` (direct parse and first-space-token parse
both fail; the `inf`/`nan` spellings outside the model excluded):
`normalizer("-inf") < normalizer(q) < normalizer(s) <
normalizer("???") = normalizer("N/A") = normalizer("Unending") =
normalizer("251+") < normalizer("inf")` — malformed strings and the
unrated sentinels sort *below* `"inf"`, not above it. -/
theorem C1_rating_order (q : ℚ) (s : String)
    (hq1 : -99999 < q) (hq2 : q < 99997)
    (h1 : s ≠ "-inf") (h2 : s ≠ "inf") (h3 : s ≠ "???") (h4 : s ≠ "N/A")
    (h5 : s ≠ "Unending") (h6 : s ≠ "251+")
    (hp : pyFloat s = none) (hpt : pyFloat (firstTok s) = none)
    (hi : isInfNan s = false) (hit : isInfNan (firstTok s) = false) :
    rating_key (some (.str "-inf")) < rating_key (some (.num q)) ∧
    rating_key (some (.num q)) < rating_key (some (.str s)) ∧
    rating_key (some (.str s)) < rating_key (some (.str "???")) ∧
    rating_key (some (.str "???")) = rating_key (some (.str "N/A")) ∧
    rating_key (some (.str "N/A")) = rating_key (some (.str "Unending")) ∧
    rating_key (some (.str "Unending")) = rating_key (some (.str "251+")) ∧
    rating_key (some (.str "251+")) < rating_key (some (.str "inf")) := by
  have hs : rating_key (some (.str s)) = 99997 := by
    simp [rating_key, h1, h2, h3, h4, h5, h6, hp, hpt]
  refine ⟨?_, ?_, ?_, by decide, by decide, by decide, by decide⟩
  · have : rating_key (some (.str "-inf")) = -99999 := by decide
    rw [this]; exact hq1
  · rw [hs]; exact hq2
  · rw [hs]; decide

/-- Claim C1, witness: the amended ordering at `q = 5`, `s = "abc"`. -/
theorem C1_witness :
    rating_key (some (.num 5)) < rating_key (some (.str "abc")) ∧
    rating_key (some (.str "abc")) < rating_key (some (.str "???")) := by
  have h := C1_rating_order 5 "abc" (by norm_num) (by norm_num)
    (by decide) (by decide) (by decide) (by decide) (by decide) (by decide)
    (by decide) (by decide) (by decide) (by decide)
  exact ⟨h.2.1, h.2.2.1⟩

/-- Claim C7, counterexample: the claim says an unparsable value is split on
the first *whitespace*, but the code splits on the space character only:
at rating `"13\t(flow)"` the claim forces the key of `13`, while the code
falls through to the malformed fallback `99997`. -/
theorem C7_counterexample :
    rating_key (some (.str "13\t(flow)")) ≠ rating_key (some (.num 13)) := by decide

/-- Claim C7, amended: `normalizer("13 (flow)") = normalizer(13)`, and in
general when the direct parse of a non-sentinel rating string fails, the
value is split on *space characters* (U+0020): the key is the parse of the
text before the first space when that parse succeeds, and the fallback
`99997` otherwise. -/
theorem C7_compound_split (s : String)
    (h1 : s ≠ "-inf") (h2 : s ≠ "inf") (h3 : s ≠ "???") (h4 : s ≠ "N/A")
    (h5 : s ≠ "Unending") (h6 : s ≠ "251+")
    (hp : pyFloat s = none)
    (hi : isInfNan s = false) (hit : isInfNan (firstTok s) = false) :
    rating_key (some (.str "13 (flow)")) = rating_key (some (.num 13)) ∧
    rating_key (some (.str s)) = (pyFloat (firstTok s)).getD 99997 := by
  refine ⟨by decide, ?_⟩
  simp only [rating_key, h1, h2, h3, h4, h5, h6, hp, if_false, if_neg, or_self]
  cases hft : pyFloat (firstTok s) <;> simp [hft]

/-- Claim C7, witness: the amended split behaviour at `s = "7 stars"`. -/
theorem C7_witness :
    rating_key (some (.str "13 (flow)")) = rating_key (some (.num 13)) ∧
    rating_key (some (.str "7 stars")) = (pyFloat (firstTok "7 stars")).getD 99997 :=
  C7_compound_split "7 stars" (by decide) (by decide) (by decide) (by decide)
    (by decide) (by decide) (by decide) (by decide) (by decide)

/-- Claim C2: the exit status is `0` exactly when no validation error was
collected (and `1` otherwise), while the outputs are written either way:
one compiled file per class source under its own filename, one per chain
source under `chains/`, and `index.json`/`all.json` are always assembled
(their class/chain totals count every input file). -/
theorem C2_exit_status (class_files chain_files : List SourceFile) :
    ((main class_files chain_files).exit_code = 0 ↔
      (main class_files chain_files).all_errors = []) ∧
    ((main class_files chain_files).exit_code = 0 ∨
      (main class_files chain_files).exit_code = 1) ∧
    ((main class_files chain_files).dist_files.map Prod.fst =
      class_files.map SourceFile.name) ∧
    ((main class_files chain_files).chain_dist_files.map Prod.fst =
      chain_files.map (fun f => "chains/" ++ f.name)) ∧
    (main class_files chain_files).index.total_classes = class_files.length ∧
    (main class_files chain_files).index.total_chains = chain_files.length := by
  refine ⟨?_, ?_, ?_, ?_, rfl, rfl⟩
  · have h : (main class_files chain_files).exit_code =
        if (main class_files chain_files).all_errors.isEmpty then 0 else 1 := rfl
    rw [h]
    cases he : (main class_files chain_files).all_errors.isEmpty <;>
      simp [List.isEmpty_iff] at he ⊢ <;> simp [he]
  · have h : (main class_files chain_files).exit_code =
        if (main class_files chain_files).all_errors.isEmpty then 0 else 1 := rfl
    rw [h]
    cases (main class_files chain_files).all_errors.isEmpty <;> simp
  · rw [main_dist_files, List.map_map]
    rfl
  · rw [main_chain_dist_files, List.map_map]
    rfl

/-- Claim C10: `all.json` (hence `index.json`'s `total_difficulties` and
`all.json`'s `total`) is built from the class source files alone: it is
unchanged under any replacement of the chain file list, and equals the
sorted concatenation of the tagged surviving class difficulties, whose
length both totals report. -/
theorem C10_all_counts_classes_only
    (class_files chain_files chain_files' : List SourceFile) :
    (main class_files chain_files).all = (main class_files chain_files').all ∧
    (main class_files chain_files).index.total_difficulties =
      (main class_files chain_files').index.total_difficulties ∧
    (main class_files chain_files).all.difficulties =
      ((class_files.map (fun f => (processClass f).2.2.1)).flatten).mergeSort keyLET ∧
    (main class_files chain_files).all.total =
      (main class_files chain_files).all.difficulties.length ∧
    (main class_files chain_files).index.total_difficulties =
      (main class_files chain_files).all.difficulties.length := by
  refine ⟨rfl, rfl, ?_, rfl, rfl⟩
  simp [main, List.map_map]
  rfl

/-- Claim C3: no placeholder entry (`name == "Example Difficulty"` and
`rating == 0`) survives `process_file`, and a container whose only
difficulty is such a placeholder compiles to an empty `difficulties` list
with zero validation errors. -/
theorem C3_placeholder_filtered (filename : String) (data : Container) (d : Difficulty) :
    (∀ e ∈ ((process_file filename data).1.difficulties.getD []),
      ¬ (e.name = some "Example Difficulty" ∧ e.rating = some (.num 0))) ∧
    (data.difficulties = some [d] → d.name = some "Example Difficulty" →
      d.rating = some (.num 0) →
      (process_file filename data).1.difficulties = some [] ∧
      (process_file filename data).2 = []) := by
  constructor
  · intro e he
    rw [process_file_fst] at he
    simp only [Option.getD_some, List.mem_mergeSort] at he
    have hpred := (List.mem_filter.mp he).2
    rintro ⟨hn, hr⟩
    simp [isPlaceholder, hn, hr] at hpred
  · intro h1 h2 h3
    have hpl : isPlaceholder d = true := by
      simp [isPlaceholder, h2, h3]
    constructor
    · rw [process_file_fst]
      simp [h1, hpl]
    · rw [process_file_snd]
      simp [h1, hpl]

/-- Claim C3, witness: a container holding exactly one placeholder entry
compiles to an empty list and no errors. -/
theorem C3_witness :
    (process_file "class_0.json"
        { difficulties :=
            some [⟨some "Example Difficulty", some "rbxassetid://0",
              some (.num 0), some "x"⟩] }).1.difficulties = some [] ∧
    (process_file "class_0.json"
        { difficulties :=
            some [⟨some "Example Difficulty", some "rbxassetid://0",
              some (.num 0), some "x"⟩] }).2 = [] :=
  (C3_placeholder_filtered "class_0.json" _
      ⟨some "Example Difficulty", some "rbxassetid://0",
        some (.num 0), some "x"⟩).2 rfl rfl rfl

/-- Claim C4: after `process_file` the difficulties are sorted ascending by
the rating key, and the sort is stable: two entries with equal keys that
appear in the placeholder-filtered input in a given order (as the pair
sublist `[a, b]`) still appear in that order in the output. -/
theorem C4_sorted_stable (filename : String) (data : Container) :
    ((process_file filename data).1.difficulties.getD []).Pairwise
      (fun a b => sort_rating_key a ≤ sort_rating_key b) ∧
    (∀ a b : Difficulty, sort_rating_key a = sort_rating_key b →
      [a, b].Sublist ((data.difficulties.getD []).filter (fun d => ! isPlaceholder d)) →
      [a, b].Sublist ((process_file filename data).1.difficulties.getD [])) := by
  constructor
  · exact process_file_sorted filename data
  · intro a b hk hsub
    rw [process_file_fst]
    simp only [Option.getD_some]
    exact List.pair_sublist_mergeSort keyLE_trans keyLE_total
      (by simp [keyLE, hk.le]) hsub

/-- Claim C4, witness: two distinct entries with equal rating `7` keep their
input order in the compiled output. -/
theorem C4_witness :
    [⟨some "A", some "a", some (.num 7), some "oa"⟩,
     ⟨some "B", some "b", some (.num 7), some "ob"⟩].Sublist
      ((process_file "class_1.json"
        { difficulties := some [⟨some "A", some "a", some (.num 7), some "oa"⟩,
            ⟨some "B", some "b", some (.num 7), some "ob"⟩] }).1.difficulties.getD []) := by
  have hfil : ((some [(⟨some "A", some "a", some (.num 7), some "oa"⟩ : Difficulty),
      ⟨some "B", some "b", some (.num 7), some "ob"⟩]).getD []).filter
        (fun d => ! isPlaceholder d) =
      [⟨some "A", some "a", some (.num 7), some "oa"⟩,
       ⟨some "B", some "b", some (.num 7), some "ob"⟩] := by decide
  exact (C4_sorted_stable "class_1.json" _).2 _ _ (by decide)
    (by rw [hfil])

/-- Claim C5, counterexample: an entry with non-blank `name`, `decal_id` and
`rating` present and `overview` missing can still be the filtered
placeholder (`name = "Example Difficulty"`, `rating = 0`); such an entry
does *not* remain in the compiled output (and is never validated), so the
claim fails at this input. -/
theorem C5_counterexample :
    ((⟨some "Example Difficulty", some "x", some (.num 0), none⟩ : Difficulty).name =
        some "Example Difficulty" ∧
      ¬ (pyStrip ("Example Difficulty").data).isEmpty ∧
      (⟨some "Example Difficulty", some "x", some (.num 0), none⟩ : Difficulty).decal_id.isSome ∧
      (⟨some "Example Difficulty", some "x", some (.num 0), none⟩ : Difficulty).rating.isSome ∧
      (⟨some "Example Difficulty", some "x", some (.num 0), none⟩ : Difficulty).overview = none) ∧
    ¬ (⟨some "Example Difficulty", some "x", some (.num 0), none⟩ : Difficulty) ∈
      ((process_file "class_0.json"
        { difficulties := some [⟨some "Example Difficulty", some "x", some (.num 0), none⟩] }
        ).1.difficulties.getD []) := by
  constructor
  · exact ⟨rfl, by decide, rfl, rfl, rfl⟩
  · rw [process_file_fst]
    have hf : ((some [(⟨some "Example Difficulty", some "x", some (.num 0), none⟩ :
        Difficulty)]).getD []).filter (fun d => ! isPlaceholder d) = [] := by decide
    rw [hf]
    simp

/-- Claim C5, amended: an entry with non-blank `name`, `decal_id` and
`rating` present and `overview` missing — and which is not the filtered
placeholder — gets exactly one validation error, the missing-`overview`
string carrying the source file name and the 1-based position `index + 1`,
and still appears in the compiled output of any container holding it. -/
theorem C5_missing_overview (d : Difficulty) (file : String) (i : Nat) (s : String)
    (data : Container)
    (hn : d.name = some s) (hnb : (pyStrip s.data).isEmpty = false)
    (hd : d.decal_id.isSome = true) (hr : d.rating.isSome = true)
    (ho : d.overview = none)
    (hnp : isPlaceholder d = false)
    (hmem : d ∈ data.difficulties.getD []) :
    validate_difficulty d file i = [missingFieldErr file (i + 1) s "overview"] ∧
    d ∈ ((process_file file data).1.difficulties.getD []) := by
  constructor
  · simp [validate_difficulty, REQUIRED_FIELDS, fieldErrors, fieldPresent,
      hn, hnb, hd, hr, ho]
  · rw [process_file_fst]
    simp only [Option.getD_some, List.mem_mergeSort]
    exact List.mem_filter.mpr ⟨hmem, by simp [hnp]⟩

/-- Claim C5, witness: the amended statement at a concrete entry missing only
`overview`, inside a one-entry container. -/
theorem C5_witness :
    validate_difficulty (⟨some "Solo", some "dec", some (.num 3), none⟩ : Difficulty)
        "class_2.json" 0 =
      [missingFieldErr "class_2.json" 1 "Solo" "overview"] ∧
    (⟨some "Solo", some "dec", some (.num 3), none⟩ : Difficulty) ∈
      ((process_file "class_2.json"
        { difficulties := some [⟨some "Solo", some "dec", some (.num 3), none⟩] }
        ).1.difficulties.getD []) :=
  C5_missing_overview _ "class_2.json" 0 "Solo" _ rfl (by decide) rfl rfl rfl
    (by decide) (by simp)

/-- Claim C6: a present but whitespace-only `name` yields the empty-name
error (a string distinct from every missing-field error) and no
missing-`name` error, while an absent `name` yields the missing-`name`
error and no empty-name error. -/
theorem C6_blank_vs_missing_name (d : Difficulty) (file : String) (i : Nat) (s : String) :
    (d.name = some s → (pyStrip s.data).isEmpty = true →
      emptyNameErr file (i + 1) ∈ validate_difficulty d file i ∧
      missingFieldErr file (i + 1) s "name" ∉ validate_difficulty d file i) ∧
    (d.name = none →
      missingFieldErr file (i + 1) "UNNAMED" "name" ∈ validate_difficulty d file i ∧
      emptyNameErr file (i + 1) ∉ validate_difficulty d file i) := by
  obtain ⟨dn, dd, dr, dov⟩ := d
  constructor
  · rintro hn hblank
    cases hn
    refine ⟨?_, ?_⟩ <;>
      cases dd <;> cases dr <;> cases dov <;>
        simp [validate_difficulty, REQUIRED_FIELDS, fieldErrors, fieldPresent, hblank,
          (emptyNameErr_ne_missingFieldErr file (i + 1) s "decal_id").symm,
          (emptyNameErr_ne_missingFieldErr file (i + 1) s "rating").symm,
          (emptyNameErr_ne_missingFieldErr file (i + 1) s "overview").symm,
          missingFieldErr_ne file (i + 1) s (show "name" ≠ "decal_id" by decide),
          missingFieldErr_ne file (i + 1) s (show "name" ≠ "rating" by decide),
          missingFieldErr_ne file (i + 1) s (show "name" ≠ "overview" by decide),
          (emptyNameErr_ne_missingFieldErr file (i + 1) s "name").symm]
  · rintro hn
    cases hn
    refine ⟨?_, ?_⟩ <;>
      cases dd <;> cases dr <;> cases dov <;>
        simp [validate_difficulty, REQUIRED_FIELDS, fieldErrors, fieldPresent,
          emptyNameErr_ne_missingFieldErr file (i + 1) "UNNAMED" "name",
          emptyNameErr_ne_missingFieldErr file (i + 1) "UNNAMED" "decal_id",
          emptyNameErr_ne_missingFieldErr file (i + 1) "UNNAMED" "rating",
          emptyNameErr_ne_missingFieldErr file (i + 1) "UNNAMED" "overview"]

/-- Claim C6, witness: the two cases at concrete entries with `name = "   "`
and with `name` absent. -/
theorem C6_witness :
    (emptyNameErr "class_3.json" 1 ∈
        validate_difficulty (⟨some "   ", some "a", some (.num 1), some "o"⟩ : Difficulty)
          "class_3.json" 0 ∧
      missingFieldErr "class_3.json" 1 "   " "name" ∉
        validate_difficulty (⟨some "   ", some "a", some (.num 1), some "o"⟩ : Difficulty)
          "class_3.json" 0) ∧
    (missingFieldErr "class_3.json" 1 "UNNAMED" "name" ∈
        validate_difficulty (⟨none, some "a", some (.num 1), some "o"⟩ : Difficulty)
          "class_3.json" 0 ∧
      emptyNameErr "class_3.json" 1 ∉
        validate_difficulty (⟨none, some "a", some (.num 1), some "o"⟩ : Difficulty)
          "class_3.json" 0) :=
  ⟨(C6_blank_vs_missing_name ⟨some "   ", some "a", some (.num 1), some "o"⟩
      "class_3.json" 0 "   ").1 rfl (by decide),
   (C6_blank_vs_missing_name ⟨none, some "a", some (.num 1), some "o"⟩
      "class_3.json" 0 "   ").2 rfl⟩

/-- Claim C8: every compiled class file's difficulties are independently
sorted by the rating key; `all.json`'s combined list is sorted by the same
key; and every entry of `all.json` carries the `class_id`/`class_name` of
the class file it came from (falling back to that file's stem), its
difficulty being one of that file's compiled difficulties. -/
theorem C8_end_to_end (class_files chain_files : List SourceFile) :
    (∀ p ∈ (main class_files chain_files).dist_files,
      (p.2.difficulties.getD []).Pairwise
        (fun a b => sort_rating_key a ≤ sort_rating_key b)) ∧
    ((main class_files chain_files).all.difficulties.Pairwise
      (fun a b => sort_rating_key a.d ≤ sort_rating_key b.d)) ∧
    (∀ t ∈ (main class_files chain_files).all.difficulties,
      ∃ f ∈ class_files,
        t.class_id = f.data.class_id.getD (stem f.name) ∧
        t.class_name = f.data.class_name.getD (stem f.name) ∧
        t.d ∈ ((process_file f.name f.data).1.difficulties.getD [])) := by
  refine ⟨?_, ?_, ?_⟩
  · intro p hp
    rw [main_dist_files] at hp
    obtain ⟨f, _, rfl⟩ := List.mem_map.mp hp
    exact process_file_sorted f.name f.data
  · exact (List.sorted_mergeSort keyLET_trans keyLET_total _).imp
      (fun h => by simpa [keyLET] using h)
  · intro t ht
    have ht' : t ∈ ((class_files.map processClass).map (fun r => r.2.2.1)).flatten :=
      List.mem_mergeSort.mp ht
    obtain ⟨l, hl, htl⟩ := List.mem_flatten.mp ht'
    obtain ⟨r, hr, rfl⟩ := List.mem_map.mp hl
    obtain ⟨f, hf, rfl⟩ := List.mem_map.mp hr
    obtain ⟨d0, hd0, rfl⟩ := List.mem_map.mp htl
    exact ⟨f, hf, rfl, rfl, hd0⟩

/-- Claim C8, witness: with the spec's example inputs (ratings
`[5, "inf", "-inf"]` and `["???", 2]`), the first compiled class file's
difficulties are sorted by the rating key. -/
theorem C8_witness :
    ((processClass ⟨"alpha.json",
        { class_id := some "alpha", class_name := some "Alpha",
          difficulties :=
            some [⟨some "Five", some "d5", some (.num 5), some "o5"⟩,
              ⟨some "Top", some "di", some (.str "inf"), some "oi"⟩,
              ⟨some "Bottom", some "dn", some (.str "-inf"), some "on"⟩] }⟩
      ).1.difficulties.getD []).Pairwise
      (fun a b => sort_rating_key a ≤ sort_rating_key b) := by
  have h := (C8_end_to_end
    [⟨"alpha.json",
        { class_id := some "alpha", class_name := some "Alpha",
          difficulties :=
            some [⟨some "Five", some "d5", some (.num 5), some "o5"⟩,
              ⟨some "Top", some "di", some (.str "inf"), some "oi"⟩,
              ⟨some "Bottom", some "dn", some (.str "-inf"), some "on"⟩] }⟩,
     ⟨"beta.json",
        { difficulties :=
            some [⟨some "Unknown", some "du", some (.str "???"), some "ou"⟩,
              ⟨some "Two", some "d2", some (.num 2), some "o2"⟩] }⟩] []).1
  refine h ("alpha.json", _) ?_
  rw [main_dist_files]
  exact List.mem_map_of_mem _ (List.mem_cons_self _ _)

end Claims

section GenHelpers

open Templates

/-- A binding found in the left part of an association list is found in the
whole list. -/
lemma lookup_append_some {β : Type _} {l₁ : List (String × β)} (l₂ : List (String × β))
    {p : String} {c : β} (h : l₁.lookup p = some c) : (l₁ ++ l₂).lookup p = some c := by
  induction l₁ with
  | nil => simp at h
  | cons a t ih =>
    obtain ⟨k, b⟩ := a
    rw [List.lookup_cons] at h
    show List.lookup p ((k, b) :: (t ++ l₂)) = some c
    rw [List.lookup_cons]
    cases hpk : (p == k)
    · rw [hpk] at h
      exact ih h
    · rw [hpk] at h
      exact h

/-- A binding appended to an association list that lacks its key is found
afterwards. -/
lemma lookup_append_self {β : Type _} {l : List (String × β)} {q : String}
    (c : β) (h : l.lookup q = none) : (l ++ [(q, c)]).lookup q = some c := by
  induction l with
  | nil => simp [List.lookup_cons]
  | cons a t ih =>
    obtain ⟨k, b⟩ := a
    rw [List.lookup_cons] at h
    show List.lookup q ((k, b) :: (t ++ [(q, c)])) = some c
    rw [List.lookup_cons]
    cases hpk : (q == k)
    · rw [hpk] at h
      exact ih h
    · rw [hpk] at h
      exact Option.noConfusion h

/-- One generator step never changes an existing binding. -/
lemma writeIfAbsent_preserves {dir : String} {mk : String → String → Compile.Container}
    {st : GenState} {t : String × String} {p : String} {c : Compile.Container}
    (h : st.files.lookup p = some c) :
    ((writeIfAbsent dir mk st t).files.lookup p) = some c := by
  unfold writeIfAbsent
  cases hex : ((st.files.lookup (tpath dir t)).isSome : Bool) <;> simp [hex]
  · exact lookup_append_some _ h
  · exact h

/-- After one generator step the step's target path exists. -/
lemma writeIfAbsent_target {dir : String} {mk : String → String → Compile.Container}
    {st : GenState} {t : String × String} :
    (((writeIfAbsent dir mk st t).files.lookup (tpath dir t)).isSome : Bool) = true := by
  unfold writeIfAbsent
  cases hex : ((st.files.lookup (tpath dir t)).isSome : Bool) <;> simp [hex]

/-- A generator step on an already-existing target only reports the skip. -/
lemma writeIfAbsent_skip {dir : String} {mk : String → String → Compile.Container}
    {st : GenState} {t : String × String}
    (h : ((st.files.lookup (tpath dir t)).isSome : Bool) = true) :
    writeIfAbsent dir mk st t =
      { files := st.files, created := st.created,
        skipped := st.skipped ++ [tpath dir t] } := by
  unfold writeIfAbsent
  simp [h]

/-- A generator loop never changes an existing binding. -/
lemma runList_preserves (dir : String) (mk : String → String → Compile.Container)
    (l : List (String × String)) :
    ∀ (st : GenState) (p : String) (c : Compile.Container),
      st.files.lookup p = some c → (runList dir mk l st).files.lookup p = some c := by
  induction l with
  | nil => intro st p c h; exact h
  | cons a t ih =>
    intro st p c h
    exact ih _ _ _ (writeIfAbsent_preserves h)

/-- A generator loop never loses a key. -/
lemma runList_mono (dir : String) (mk : String → String → Compile.Container)
    (l : List (String × String)) (st : GenState) (p : String)
    (h : ((st.files.lookup p).isSome : Bool) = true) :
    (((runList dir mk l st).files.lookup p).isSome : Bool) = true := by
  obtain ⟨c, hc⟩ := Option.isSome_iff_exists.mp h
  rw [runList_preserves dir mk l st p c hc]
  rfl

/-- After a generator loop every target of the loop exists. -/
lemma runList_targets (dir : String) (mk : String → String → Compile.Container)
    (l : List (String × String)) :
    ∀ (st : GenState) (t : String × String), t ∈ l →
      (((runList dir mk l st).files.lookup (tpath dir t)).isSome : Bool) = true := by
  induction l with
  | nil => intro st t h; cases h
  | cons a r ih =>
    intro st t h
    rcases List.mem_cons.mp h with h | h
    · subst h
      exact runList_mono dir mk r _ _ writeIfAbsent_target
    · exact ih _ _ h

/-- A generator loop whose targets all exist already is a pure skip: it
reports every target and changes nothing. -/
lemma runList_all_skip (dir : String) (mk : String → String → Compile.Container) :
    ∀ (l : List (String × String)) (st : GenState),
      (∀ t ∈ l, ((st.files.lookup (tpath dir t)).isSome : Bool) = true) →
      runList dir mk l st =
        { files := st.files, created := st.created,
          skipped := st.skipped ++ l.map (tpath dir) } := by
  intro l
  induction l with
  | nil => intro st _; cases st; simp [runList]
  | cons a r ih =>
    intro st h
    have hstep := @writeIfAbsent_skip dir mk st a (h a (List.mem_cons_self a r))
    show runList dir mk r (writeIfAbsent dir mk st a) = _
    rw [hstep]
    rw [ih (GenState.mk st.files st.created (st.skipped ++ [tpath dir a]))
        (fun t ht => h t (List.mem_cons_of_mem a ht))]
    simp

end GenHelpers

section ClaimNine

open Templates

/-- Claim C9: the template generator never overwrites an existing file (every
pre-existing path keeps its exact content), and it is idempotent after the
first run: running it again on the resulting filesystem creates zero files,
leaves the filesystem unchanged, and reports every target as already
existing. -/
theorem C9_generator_idempotent (fs : List (String × Compile.Container))
    (p : String) (c : Compile.Container) :
    (fs.lookup p = some c → (gen_main fs).files.lookup p = some c) ∧
    (gen_main ((gen_main fs).files)).files = (gen_main fs).files ∧
    (gen_main ((gen_main fs).files)).created = [] ∧
    (gen_main ((gen_main fs).files)).skipped = allTargets := by
  have hg : gen_main fs =
      runList chains_dir make_chain_template CHAINS
        (runList classes_dir make_class_template CLASSES
          (GenState.mk fs [] [])) := rfl
  have hclasses : ∀ t ∈ CLASSES,
      (((gen_main fs).files.lookup (tpath classes_dir t)).isSome : Bool) = true := by
    intro t ht
    rw [hg]
    exact runList_mono chains_dir make_chain_template CHAINS
      (runList classes_dir make_class_template CLASSES (GenState.mk fs [] []))
      (tpath classes_dir t)
      (runList_targets classes_dir make_class_template CLASSES
        (GenState.mk fs [] []) t ht)
  have hchains : ∀ t ∈ CHAINS,
      (((gen_main fs).files.lookup (tpath chains_dir t)).isSome : Bool) = true := by
    intro t ht
    rw [hg]
    exact runList_targets chains_dir make_chain_template CHAINS
      (runList classes_dir make_class_template CLASSES (GenState.mk fs [] [])) t ht
  obtain ⟨F, hF⟩ : ∃ F, F = (gen_main fs).files := ⟨_, rfl⟩
  rw [← hF] at hclasses hchains ⊢
  have hrun2 : gen_main F =
      GenState.mk F []
        (CLASSES.map (tpath classes_dir) ++ CHAINS.map (tpath chains_dir)) := by
    show runList chains_dir make_chain_template CHAINS
        (runList classes_dir make_class_template CLASSES
          (GenState.mk F [] [])) = _
    rw [runList_all_skip classes_dir make_class_template CLASSES
        (GenState.mk F [] []) hclasses]
    show runList chains_dir make_chain_template CHAINS
        (GenState.mk F [] ([] ++ CLASSES.map (tpath classes_dir))) = _
    rw [runList_all_skip chains_dir make_chain_template CHAINS
        (GenState.mk F [] ([] ++ CLASSES.map (tpath classes_dir))) hchains]
    simp
  refine ⟨?_, ?_, ?_, ?_⟩
  · intro h
    rw [hF, hg]
    exact runList_preserves chains_dir make_chain_template CHAINS
      (runList classes_dir make_class_template CLASSES (GenState.mk fs [] [])) p c
      (runList_preserves classes_dir make_class_template CLASSES
        (GenState.mk fs [] []) p c h)
  · rw [hrun2]
  · rw [hrun2]
  · rw [hrun2]; rfl

/-- Claim C9, witness: a pre-existing `class_0.json` keeps its exact content
through a generator run. -/
theorem C9_witness :
    (gen_main [("data/classes/class_0.json",
        make_class_template "class_0" "Class Zero")]).files.lookup
      "data/classes/class_0.json" = some (make_class_template "class_0" "Class Zero") :=
  (C9_generator_idempotent
      [("data/classes/class_0.json", make_class_template "class_0" "Class Zero")]
      "data/classes/class_0.json" (make_class_template "class_0" "Class Zero")).1
    (by simp [List.lookup_cons])

end ClaimNine
